import Mathlib

/-!
Shallow embedding of `src/SubtleCrypto.js` (the WebCrypto-style dispatch
core): the data model (keys, algorithm descriptors, normalized algorithm
modules), the promise outcomes, and the public operations of the
`SubtleCrypto` class, translated statement by statement from the source.

Promises are modelled by `Outcome`: a promise either resolves with a value,
rejects with a typed error, or never settles (`pending`) — the last case
arises in the source where a rejection of an inner `.then` chain has no
handler (`wrapKey`) or is swallowed by `.catch(console.log)` (`unwrapKey`).

Each public operation also returns the list of `Event`s it emitted: entering
a public dispatcher method and invoking an algorithm module capability are
observable, so that claims about which code is (or is not) invoked can be
stated.

Mutable caller buffers are modelled by `BufferSource`: `now` is the buffer's
contents at the moment the dispatcher is called (everything the source reads
synchronously — promise executors run synchronously — sees this value, and
`data.slice()` copies it), while `later` is the contents after the dispatcher
has returned, i.e. after any caller mutation.  A read that the source
performed asynchronously without copying would be translated as a read of
`later`; the source performs none.
-/

/-- The error taxonomy of the source (`src/errors` plus the JS built-ins
`TypeError` and `SyntaxError` and the runtime `TypeError`s raised by calling
a missing method). -/
inductive ErrKind where
  | invalidAccess
  | notSupported
  | syntaxErr
  | typeErr
  | dataErr
  | operationErr
  deriving DecidableEq, Repr

/-- A JS error value: its constructor kind and its message string (the
source distinguishes errors by both). -/
structure JsError where
  kind : ErrKind
  msg : String
  deriving DecidableEq, Repr

/-- Octet strings (Uint8Array contents) as lists of naturals. -/
abbrev Bytes := List Nat

/-- A caller-owned mutable buffer: `now` is its contents when the dispatcher
method is entered, `later` its contents once the caller has had a chance to
mutate it (after dispatch returned).  `slice()` performed during the
synchronous phase copies `now`. -/
structure BufferSource where
  now : Bytes
  later : Bytes
  deriving DecidableEq, Repr

/-- The outcome of a JS promise: resolved, rejected, or never settled. -/
inductive Outcome (α : Type) where
  | resolved (a : α)
  | rejected (e : JsError)
  | pending
  deriving DecidableEq, Repr

/-- The kind of the rejection error, when the outcome is a rejection. -/
def Outcome.rejKind {α : Type} : Outcome α → Option ErrKind
  | .rejected e => some e.kind
  | _ => none

/-- Whether the promise ever settles (resolves or rejects). -/
def Outcome.settles {α : Type} : Outcome α → Bool
  | .pending => false
  | _ => true

/-- Observable events of a dispatch: entry into a public `SubtleCrypto`
method, and invocation of an algorithm-module capability (or of the
`exportKey` method carried by a key's own algorithm object). -/
inductive Event where
  | pubEncrypt
  | pubDecrypt
  | pubSign
  | pubVerify
  | pubDigest
  | pubImportKey
  | pubExportKey
  | pubWrapKey
  | pubUnwrapKey
  | modEncrypt
  | modDecrypt
  | modSign
  | modVerify
  | modDigest
  | modWrapKey
  | modUnwrapKey
  | modImportKey
  | keyAlgExportKey
  deriving DecidableEq, Repr

/-- A caller-supplied algorithm descriptor (`AlgorithmIdentifier`): a plain
string, a record with a name (further members are only ever interpreted by
the normalizer and the algorithm modules, so they are kept as an opaque
association list), or the JS value `undefined` (which reaches `normalize`
through the buggy re-entrant `this.unwrapKey` call in the source). -/
inductive AlgDesc where
  | str (s : String)
  | record (name : String) (params : List (String × Nat))
  | undef
  deriving DecidableEq, Repr

/-- A structured JSON-Web-Key object, kept as its member list. -/
structure JWK where
  pairs : List (String × String)
  deriving DecidableEq, Repr

/-- What a key-export capability returns: an octet buffer (`raw`, `pkcs8`,
`spki`) or a structured JWK object (`jwk`). -/
inductive Exported where
  | buf (b : Bytes)
  | jwk (j : JWK)
  deriving DecidableEq, Repr

/-- Key material as an algorithm module's `importKey` capability receives it
after the dispatcher's format branches: a copied octet buffer, a structured
JWK object, or the JS `undefined` that reaches the module when the format
matches no branch. -/
inductive ImportMaterial where
  | buf (b : Bytes)
  | jwkObj (j : JWK)
  | undef
  deriving DecidableEq, Repr

/-- Key material as the caller supplies it to `importKey`: an octet buffer
(mutable, so a `BufferSource`) or a structured JWK object. -/
inductive ImportMaterialSrc where
  | buf (b : BufferSource)
  | jwkObj (j : JWK)
  deriving DecidableEq, Repr

/-- The data fields of a `CryptoKey`, as seen by the `exportKey` method of
the key's own algorithm object (which cannot be handed the full `CryptoKey`
record, since it is itself a component of it). -/
structure KeyView where
  type : String
  extractable : Bool
  algName : String
  usages : List String
  handle : Bytes
  deriving DecidableEq, Repr

/-- The algorithm object carried by a key: `key.algorithm` in the source,
with its `name` and (optionally) its own `exportKey` method, which the
dispatcher's `exportKey` invokes as `key.algorithm.exportKey(format, key)`. -/
structure KeyAlgObj where
  name : String
  exportKey : Option (String → KeyView → Except JsError Exported)

/-- A `CryptoKey` handle: type (`"secret"`, `"private"` or `"public"` — the
source compares the field against string literals), extractability, the
algorithm object, the usage list and the opaque handle bytes. -/
structure CryptoKey where
  type : String
  extractable : Bool
  algorithm : KeyAlgObj
  usages : List String
  handle : Bytes

/-- The plain data fields of a key. -/
def CryptoKey.view (k : CryptoKey) : KeyView :=
  ⟨k.type, k.extractable, k.algorithm.name, k.usages, k.handle⟩

/-- A normalized algorithm as `supportedAlgorithms.normalize` returns it: a
canonical `name` plus an optional capability per operation (the source
probes capabilities by member name, e.g. `normalizedAlgorithm['wrapKey']`;
calling a missing one raises a runtime `TypeError`).  A capability throwing
is modelled by `Except.error`.  The argument lists mirror the call sites in
`SubtleCrypto.js` (e.g. `encrypt` receives the original descriptor, the key
and the copied data; `sign` receives only the key and data). -/
structure NormalizedAlgorithm where
  name : String
  encrypt : Option (AlgDesc → CryptoKey → Bytes → Except JsError Bytes)
  decrypt : Option (AlgDesc → CryptoKey → Bytes → Except JsError Bytes)
  sign : Option (CryptoKey → Bytes → Except JsError Bytes)
  verify : Option (CryptoKey → Bytes → Bytes → Except JsError Bool)
  digest : Option (AlgDesc → Bytes → Except JsError Bytes)
  wrapKey : Option (AlgDesc → CryptoKey → Bytes → Except JsError Bytes)
  unwrapKey : Option (AlgDesc → CryptoKey → Bytes → Except JsError Bytes)
  importKey : Option (String → ImportMaterial → AlgDesc → Bool → List String → Except JsError CryptoKey)

/-- The external collaborators of the dispatcher, per spec §1: the algorithm
registry with its normalizer (`supportedAlgorithms.normalize`, and the
membership test `supportedAlgorithms['exportKey'][name]` used by `exportKey`
and `wrapKey`), and the JSON / UTF-8 codecs (`JSON.stringify`,
`TextEncoder().encode`, and `JSON.parse` composed with
`TextDecoder().decode`) used by the wrap/unwrap jwk branches. -/
structure Env where
  normalize : String → AlgDesc → Except JsError NormalizedAlgorithm
  exportKeyRegistered : String → Bool
  stringify : Exported → String
  utf8Encode : String → Bytes
  parseUtf8Json : Bytes → Except JsError JWK

/-- Modelled from the spec: the recognized usage vocabulary of
`src/keys/recognizedKeyUsages`, which is not under `src/` (spec §3, §6). -/
def recognizedUsages : List String :=
  ["encrypt", "decrypt", "sign", "verify", "deriveKey", "deriveBits", "wrapKey", "unwrapKey"]

/-- Modelled from the spec: `recognizedKeyUsages.normalize` (not under
`src/`): it deduplicates a caller-supplied usage list and rejects any
unknown token with `SyntaxError` (spec §6). -/
def normalizeUsages (us : List String) : Except JsError (List String) :=
  if us.all (fun u => recognizedUsages.contains u) then
    .ok us.dedup
  else
    .error ⟨.syntaxErr, "unrecognized key usage"⟩

/-- Modelled from the spec: construction of a `JsonWebKey`
(`src/keys/JsonWebKey` is not under `src/`).  Per spec §4.3 a structured
JSON-Web-Key object yields a `JsonWebKey` instance carrying its members,
while an octet buffer is not a structured JWK and yields none — the
dispatcher's subsequent `instanceof JsonWebKey` check then raises the
`TypeError` of `SubtleCrypto.js` line 298. -/
def mkJsonWebKey : ImportMaterialSrc → Option JWK
  | .jwkObj j => some j
  | .buf _ => none

/-- `SubtleCrypto.encrypt` (`SubtleCrypto.js` lines 28–50).  `data.slice()`
(line 29) copies the caller buffer at call time; the promise executor
(entered synchronously) checks the algorithm/key name match, then the
`encrypt` usage, then invokes the module's `encrypt` capability with the
original descriptor, the key and the copied data.  A throw inside the
executor rejects the promise. -/
def SubtleCrypto.encrypt (env : Env) (algorithm : AlgDesc) (key : CryptoKey)
    (data : BufferSource) : Outcome Bytes × List Event :=
  let d := data.now
  match env.normalize "encrypt" algorithm with
  | .error e => (.rejected e, [.pubEncrypt])
  | .ok na =>
    if na.name ≠ key.algorithm.name then
      (.rejected ⟨.invalidAccess, "Algorithm does not match key"⟩, [.pubEncrypt])
    else if !(key.usages.contains "encrypt") then
      (.rejected ⟨.invalidAccess, "Key usages must include \"encrypt\""⟩, [.pubEncrypt])
    else
      match na.encrypt with
      | none => (.rejected ⟨.typeErr, "normalizedAlgorithm.encrypt is not a function"⟩, [.pubEncrypt])
      | some f =>
        match f algorithm key d with
        | .ok c => (.resolved c, [.pubEncrypt, .modEncrypt])
        | .error e => (.rejected e, [.pubEncrypt, .modEncrypt])

/-- `SubtleCrypto.decrypt` (lines 63–84): as `encrypt`, with the `decrypt`
usage and capability; the source slices `data` after the normalization check
(line 70), still synchronously before the method returns. -/
def SubtleCrypto.decrypt (env : Env) (algorithm : AlgDesc) (key : CryptoKey)
    (data : BufferSource) : Outcome Bytes × List Event :=
  match env.normalize "decrypt" algorithm with
  | .error e => (.rejected e, [.pubDecrypt])
  | .ok na =>
    let d := data.now
    if na.name ≠ key.algorithm.name then
      (.rejected ⟨.invalidAccess, "Algorithm does not match key"⟩, [.pubDecrypt])
    else if !(key.usages.contains "decrypt") then
      (.rejected ⟨.invalidAccess, "Key usages must include \"decrypt\""⟩, [.pubDecrypt])
    else
      match na.decrypt with
      | none => (.rejected ⟨.typeErr, "normalizedAlgorithm.decrypt is not a function"⟩, [.pubDecrypt])
      | some f =>
        match f algorithm key d with
        | .ok p => (.resolved p, [.pubDecrypt, .modDecrypt])
        | .error e => (.rejected e, [.pubDecrypt, .modDecrypt])

/-- `SubtleCrypto.sign` (lines 97–119): slice, normalize under `sign`, name
match, `sign` usage, then the module's `sign` capability applied to the key
and the copied data (the source passes no descriptor, line 115). -/
def SubtleCrypto.sign (env : Env) (algorithm : AlgDesc) (key : CryptoKey)
    (data : BufferSource) : Outcome Bytes × List Event :=
  let d := data.now
  match env.normalize "sign" algorithm with
  | .error e => (.rejected e, [.pubSign])
  | .ok na =>
    if na.name ≠ key.algorithm.name then
      (.rejected ⟨.invalidAccess, "Algorithm does not match key"⟩, [.pubSign])
    else if !(key.usages.contains "sign") then
      (.rejected ⟨.invalidAccess, "Key usages must include \"sign\""⟩, [.pubSign])
    else
      match na.sign with
      | none => (.rejected ⟨.typeErr, "normalizedAlgorithm.sign is not a function"⟩, [.pubSign])
      | some f =>
        match f key d with
        | .ok s => (.resolved s, [.pubSign, .modSign])
        | .error e => (.rejected e, [.pubSign, .modSign])

/-- `SubtleCrypto.verify` (lines 133–156): `signature.slice()` (line 134),
normalize under `verify`, `data.slice()` (line 142), name match, `verify`
usage, then the module's `verify` capability on the key and both copies. -/
def SubtleCrypto.verify (env : Env) (algorithm : AlgDesc) (key : CryptoKey)
    (signature : BufferSource) (data : BufferSource) : Outcome Bool × List Event :=
  let sg := signature.now
  match env.normalize "verify" algorithm with
  | .error e => (.rejected e, [.pubVerify])
  | .ok na =>
    let d := data.now
    if na.name ≠ key.algorithm.name then
      (.rejected ⟨.invalidAccess, "Algorithm does not match key"⟩, [.pubVerify])
    else if !(key.usages.contains "verify") then
      (.rejected ⟨.invalidAccess, "Key usages must include \"verify\""⟩, [.pubVerify])
    else
      match na.verify with
      | none => (.rejected ⟨.typeErr, "normalizedAlgorithm.verify is not a function"⟩, [.pubVerify])
      | some f =>
        match f key sg d with
        | .ok b => (.resolved b, [.pubVerify, .modVerify])
        | .error e => (.rejected e, [.pubVerify, .modVerify])

/-- `SubtleCrypto.digest` (lines 168–185): slice, normalize under `digest`,
then — with no key, usage or extractability check of any kind — invoke the
module's `digest` capability inside a try/catch whose catch rejects. -/
def SubtleCrypto.digest (env : Env) (algorithm : AlgDesc)
    (data : BufferSource) : Outcome Bytes × List Event :=
  let d := data.now
  match env.normalize "digest" algorithm with
  | .error e => (.rejected e, [.pubDigest])
  | .ok na =>
    match na.digest with
    | none => (.rejected ⟨.typeErr, "normalizedAlgorithm.digest is not a function"⟩, [.pubDigest])
    | some f =>
      match f algorithm d with
      | .ok r => (.resolved r, [.pubDigest, .modDigest])
      | .error e => (.rejected e, [.pubDigest, .modDigest])

/-- `SubtleCrypto.importKey` (lines 278–320).  For `raw`/`pkcs8`/`spki` a
structured JWK supplied as material raises `TypeError` (the `instanceof
JsonWebKey` check, line 288; a plain structured object would equally raise a
runtime `TypeError` at `keyData.slice()`, line 291) and a buffer is copied by
`slice()`; for `jwk` the material is passed through the `JsonWebKey`
constructor and must come out a structured JWK (line 297).  The module's
`importKey` capability then runs inside try/catch; an imported
secret/private key with empty usages raises `SyntaxError` (line 308), and
finally `extractable` and the normalized usages are assigned onto the
result. -/
def SubtleCrypto.importKey (env : Env) (format : String) (keyData : ImportMaterialSrc)
    (algorithm : AlgDesc) (extractable : Bool) (keyUsages : List String) :
    Outcome CryptoKey × List Event :=
  match env.normalize "importKey" algorithm with
  | .error e => (.rejected e, [.pubImportKey])
  | .ok na =>
    let materialE : Except JsError ImportMaterial :=
      if format = "raw" ∨ format = "pkcs8" ∨ format = "spki" then
        match keyData with
        | .jwkObj _ => .error ⟨.typeErr, ""⟩
        | .buf b => .ok (.buf b.now)
      else if format = "jwk" then
        match mkJsonWebKey keyData with
        | some j => .ok (.jwkObj j)
        | none => .error ⟨.typeErr, "key is not a JSON Web Key"⟩
      else
        -- no branch applies: the material reaches the module unchanged
        -- (the module runs synchronously, so a buffer is read at call time)
        match keyData with
        | .buf b => .ok (.buf b.now)
        | .jwkObj j => .ok (.jwkObj j)
    match materialE with
    | .error e => (.rejected e, [.pubImportKey])
    | .ok material =>
      match na.importKey with
      | none => (.rejected ⟨.typeErr, "normalizedAlgorithm.importKey is not a function"⟩, [.pubImportKey])
      | some f =>
        match f format material algorithm extractable keyUsages with
        | .error e => (.rejected e, [.pubImportKey, .modImportKey])
        | .ok result =>
          if (result.type = "secret" ∨ result.type = "private") ∧ result.usages.isEmpty then
            (.rejected ⟨.syntaxErr, ""⟩, [.pubImportKey, .modImportKey])
          else
            match normalizeUsages keyUsages with
            | .error e => (.rejected e, [.pubImportKey, .modImportKey])
            | .ok us =>
              (.resolved { result with extractable := extractable, usages := us },
               [.pubImportKey, .modImportKey])

/-- `SubtleCrypto.exportKey` (lines 332–352): first the registry check
(`supportedAlgorithms['exportKey'][key.algorithm.name]`, `NotSupportedError`
when absent), then the extractability gate (`InvalidAccessError`), then the
`exportKey` method of the key's own algorithm object. -/
def SubtleCrypto.exportKey (env : Env) (format : String) (key : CryptoKey) :
    Outcome Exported × List Event :=
  if !(env.exportKeyRegistered key.algorithm.name) then
    (.rejected ⟨.notSupported, key.algorithm.name⟩, [.pubExportKey])
  else if key.extractable = false then
    (.rejected ⟨.invalidAccess, "Key is not extractable"⟩, [.pubExportKey])
  else
    match key.algorithm.exportKey with
    | none => (.rejected ⟨.typeErr, "key.algorithm.exportKey is not a function"⟩, [.pubExportKey])
    | some f =>
      match f format key.view with
      | .ok r => (.resolved r, [.pubExportKey, .keyAlgExportKey])
      | .error e => (.rejected e, [.pubExportKey, .keyAlgExportKey])

/-- The normalization step of `wrapKey` (lines 369–373): normalize under
`wrapKey`; if that yields an error the variable is overwritten with the
result of normalizing under `encrypt` — so when both fail, the value left is
the error of the `encrypt` attempt. -/
def normalizeWrapAlg (env : Env) (alg : AlgDesc) : Except JsError NormalizedAlgorithm :=
  match env.normalize "wrapKey" alg with
  | .ok na => .ok na
  | .error _ => env.normalize "encrypt" alg

/-- The normalization step of `unwrapKey` (lines 458–462): normalize under
`unwrapKey`, overwriting with the `decrypt` attempt on failure. -/
def normalizeUnwrapAlg (env : Env) (alg : AlgDesc) : Except JsError NormalizedAlgorithm :=
  match env.normalize "unwrapKey" alg with
  | .ok na => .ok na
  | .error _ => env.normalize "decrypt" alg

/-- The body of `wrapKey` once normalization has produced `na` (lines
379–435): name match against the wrapping key, `wrapKey` usage, the
`exportKey` registry check on the wrapped key's own algorithm, the
extractability gate, then `this.exportKey(format, key)`.  The executor
returns the `.then` chain built on that promise, which has no rejection
handler: if `exportKey` rejects, or the wrapping capability throws inside
the `.then`, the outer promise never settles.  After export the octets are
the exported buffer for `raw`/`pkcs8`/`spki` (`new Uint8Array` of a
non-buffer is empty), or the UTF-8 encoding of `JSON.stringify` for `jwk`
(otherwise `bytes` stays `undefined` and `new Uint8Array(undefined)` is
empty); then the module's `wrapKey` capability is preferred, `encrypt` is
the fallback, and `NotSupportedError` rejects the outer promise when
neither exists (lines 418–428). -/
def wrapKeyValidated (env : Env) (format : String) (key wrappingKey : CryptoKey)
    (wrapAlgorithm : AlgDesc) (na : NormalizedAlgorithm) : Outcome Bytes × List Event :=
  if na.name ≠ wrappingKey.algorithm.name then
    (.rejected ⟨.invalidAccess, "NormalizedAlgorthm name must be same as wrappingKey algorithm name"⟩,
     [.pubWrapKey])
  else if !(wrappingKey.usages.contains "wrapKey") then
    (.rejected ⟨.invalidAccess, "Wrapping key usages must include \"wrapKey\""⟩, [.pubWrapKey])
  else if !(env.exportKeyRegistered key.algorithm.name) then
    (.rejected ⟨.notSupported, key.algorithm.name⟩, [.pubWrapKey])
  else if key.extractable = false then
    (.rejected ⟨.invalidAccess, "Key is not extractable"⟩, [.pubWrapKey])
  else
    match SubtleCrypto.exportKey env format key with
    | (.rejected _, tr) => (.pending, .pubWrapKey :: tr)
    | (.pending, tr) => (.pending, .pubWrapKey :: tr)
    | (.resolved exported, tr) =>
      let bytes : Bytes :=
        if format = "raw" ∨ format = "pkcs8" ∨ format = "spki" then
          match exported with
          | .buf b => b
          | .jwk _ => []
        else if format = "jwk" then
          env.utf8Encode (env.stringify exported)
        else
          []
      match na.wrapKey with
      | some f =>
        match f wrapAlgorithm wrappingKey bytes with
        | .ok c => (.resolved c, .pubWrapKey :: tr ++ [.modWrapKey])
        | .error _ => (.pending, .pubWrapKey :: tr ++ [.modWrapKey])
      | none =>
        match na.encrypt with
        | some f =>
          match f wrapAlgorithm wrappingKey bytes with
          | .ok c => (.resolved c, .pubWrapKey :: tr ++ [.modEncrypt])
          | .error _ => (.pending, .pubWrapKey :: tr ++ [.modEncrypt])
        | none => (.rejected ⟨.notSupported, na.name⟩, .pubWrapKey :: tr)

/-- `SubtleCrypto.wrapKey` (lines 366–436): normalize per `normalizeWrapAlg`
(rejecting with the value that step leaves on failure), then the validated
body. -/
def SubtleCrypto.wrapKey (env : Env) (format : String) (key wrappingKey : CryptoKey)
    (wrapAlgorithm : AlgDesc) : Outcome Bytes × List Event :=
  match normalizeWrapAlg env wrapAlgorithm with
  | .error e => (.rejected e, [.pubWrapKey])
  | .ok na => wrapKeyValidated env format key wrappingKey wrapAlgorithm na

/-- The re-entrant `this.unwrapKey(unwrapAlgorithm, unwrappingKey,
wrappedKey)` call of line 494, executed with its arguments shifted into the
wrong positions: in the re-entered activation `format` is the descriptor,
`wrappedKey` is the unwrapping `CryptoKey`, `unwrappingKey` is the wrapped
octet buffer, and `unwrapAlgorithm` (with every later parameter) is
`undefined`.  The activation therefore cannot recurse further or reach any
capability: it normalizes `undefined` under `unwrapKey` then `decrypt`
(lines 458–462) and under `importKey` (line 470), rejecting with the error
when one fails, and otherwise throws the runtime `TypeError` of line 482,
where `unwrappingKey.algorithm.name` reads `.name` of `undefined` (`.algorithm`
of a `Uint8Array`).  Every path rejects, so the promise it returns never
resolves; since the outcome depends on none of the shifted arguments they
are not parameters here. -/
def SubtleCrypto.unwrapKeyReentered (env : Env) : Outcome Bytes × List Event :=
  match normalizeUnwrapAlg env .undef with
  | .error e => (.rejected e, [.pubUnwrapKey])
  | .ok _ =>
    match env.normalize "importKey" .undef with
    | .error e => (.rejected e, [.pubUnwrapKey])
    | .ok _ =>
      (.rejected ⟨.typeErr, "Cannot read property name of undefined"⟩, [.pubUnwrapKey])

/-- `SubtleCrypto.unwrapKey` (lines 453–546).  Normalization per
`normalizeUnwrapAlg`; then — the source's slip — `unwrapAlgorithm` (not
`unwrappedKeyAlgorithm`) is normalized under `importKey` (line 470),
rejecting on failure.  Inside the promise: name match against the
unwrapping key, the `unwrapKey` usage, then the decryption step: when the
module exposes `unwrapKey` the source re-enters the public
`this.unwrapKey` (line 494, see `SubtleCrypto.unwrapKeyReentered`), else
when it exposes `decrypt` it re-enters the public `this.decrypt` (line
499), else rejects `NotSupportedError`.  The resulting `keyPromise` is
consumed by a `.then` chain (materialize per format, import through
`normalizedKeyAlgorithm.importKey`, the empty-usages `SyntaxError`, the
`extractable`/`usages` assignment — line 537 assigns `keyUsages` raw) whose
only handler is `.catch(console.log)` (line 541): every rejection arising
in the chain is logged and swallowed, leaving the outer promise pending
forever. -/
def SubtleCrypto.unwrapKey (env : Env) (format : String) (wrappedKey : BufferSource)
    (unwrappingKey : CryptoKey) (unwrapAlgorithm unwrappedKeyAlgorithm : AlgDesc)
    (extractable : Bool) (keyUsages : List String) : Outcome CryptoKey × List Event :=
  match normalizeUnwrapAlg env unwrapAlgorithm with
  | .error e => (.rejected e, [.pubUnwrapKey])
  | .ok na =>
    match env.normalize "importKey" unwrapAlgorithm with
    | .error e => (.rejected e, [.pubUnwrapKey])
    | .ok nka =>
      if na.name ≠ unwrappingKey.algorithm.name then
        (.rejected ⟨.invalidAccess, "NormalizedAlgorthm name must be same as unwrappingKey algorithm name"⟩,
         [.pubUnwrapKey])
      else if !(unwrappingKey.usages.contains "unwrapKey") then
        (.rejected ⟨.invalidAccess, "Unwrapping key usages must include \"unwrapKey\""⟩,
         [.pubUnwrapKey])
      else
        match (if na.unwrapKey.isSome then
                 some (SubtleCrypto.unwrapKeyReentered env)
               else if na.decrypt.isSome then
                 some (SubtleCrypto.decrypt env unwrapAlgorithm unwrappingKey wrappedKey)
               else
                 none) with
        | none => (.rejected ⟨.notSupported, na.name⟩, [.pubUnwrapKey])
        | some (kp, tr) =>
          match kp with
          | .rejected _ => (.pending, .pubUnwrapKey :: tr)
          | .pending => (.pending, .pubUnwrapKey :: tr)
          | .resolved keyBytes =>
            let materialE : Except JsError ImportMaterial :=
              if format = "raw" ∨ format = "pkcs8" ∨ format = "spki" then
                .ok (.buf keyBytes)
              else if format = "jwk" then
                match env.parseUtf8Json keyBytes with
                | .ok j => .ok (.jwkObj j)
                | .error e => .error e
              else
                .ok .undef
            match materialE with
            | .error _ => (.pending, .pubUnwrapKey :: tr)
            | .ok material =>
              match nka.importKey with
              | none => (.pending, .pubUnwrapKey :: tr)
              | some f =>
                match f format material unwrappedKeyAlgorithm extractable keyUsages with
                | .error _ => (.pending, .pubUnwrapKey :: tr ++ [.modImportKey])
                | .ok result =>
                  if (result.type = "secret" ∨ result.type = "private") ∧ result.usages.isEmpty then
                    (.pending, .pubUnwrapKey :: tr ++ [.modImportKey])
                  else
                    (.resolved { result with extractable := extractable, usages := keyUsages },
                     .pubUnwrapKey :: tr ++ [.modImportKey])

/-- A concrete key produced by the sample module's `importKey`. -/
def sampleImported : CryptoKey :=
  { type := "secret", extractable := false, algorithm := ⟨"AES-GCM", none⟩,
    usages := ["encrypt"], handle := [42] }

/-- A sample algorithm module named `AES-GCM` exposing the symmetric
capabilities (but neither `wrapKey` nor `unwrapKey`). -/
def sampleModule : NormalizedAlgorithm :=
  { name := "AES-GCM"
    encrypt := some (fun _ _ d => .ok (d.map (· + 1)))
    decrypt := some (fun _ _ d => .ok (d.map (· - 1)))
    sign := some (fun _ d => .ok d)
    verify := some (fun _ _ _ => .ok true)
    digest := some (fun _ d => .ok d)
    wrapKey := none
    unwrapKey := none
    importKey := some (fun _ _ _ _ _ => .ok sampleImported) }

/-- A sample registry: the descriptor `"AES-GCM"` is registered for every
operation and resolves to `sampleModule`; everything else (including the
`undefined` descriptor) is `NotSupportedError`. -/
def sampleEnv : Env :=
  { normalize := fun _ d =>
      match d with
      | .str "AES-GCM" => .ok sampleModule
      | _ => .error ⟨.notSupported, "unregistered algorithm"⟩
    exportKeyRegistered := fun n => n = "AES-GCM"
    stringify := fun _ => ""
    utf8Encode := fun s => s.toList.map Char.toNat
    parseUtf8Json := fun _ => .error ⟨.syntaxErr, "Unexpected token"⟩ }

/-- A fully-usable extractable AES-GCM key. -/
def sampleKey : CryptoKey :=
  { type := "secret", extractable := true,
    algorithm := ⟨"AES-GCM", some (fun _ k => .ok (.buf k.handle))⟩,
    usages := ["encrypt", "decrypt", "sign", "verify", "wrapKey", "unwrapKey"],
    handle := [1, 2, 3] }

/-- An AES-GCM key with an empty usage list. -/
def noUsageKey : CryptoKey :=
  { type := "secret", extractable := true,
    algorithm := ⟨"AES-GCM", some (fun _ k => .ok (.buf k.handle))⟩,
    usages := [], handle := [1, 2, 3] }

/-- A key whose algorithm name matches no registered algorithm and with an
empty usage list. -/
def mismatchKey : CryptoKey :=
  { type := "secret", extractable := true,
    algorithm := ⟨"OTHER", none⟩, usages := [], handle := [4] }

/-- A non-extractable AES-GCM key (registered for `exportKey`). -/
def lockedKey : CryptoKey :=
  { type := "secret", extractable := false,
    algorithm := ⟨"AES-GCM", some (fun _ k => .ok (.buf k.handle))⟩,
    usages := ["encrypt", "decrypt", "wrapKey", "unwrapKey"], handle := [5] }

/-- A non-extractable key whose algorithm name `X` is not registered for
`exportKey`. -/
def foreignKey : CryptoKey :=
  { type := "secret", extractable := false,
    algorithm := ⟨"X", none⟩, usages := ["encrypt", "wrapKey"], handle := [6] }

/-- A registry on which every normalization fails, with an error naming the
operation it was attempted under (so the `wrapKey` and `encrypt` attempts
produce distinct error values). -/
def failEnv : Env :=
  { normalize := fun op _ => .error ⟨.notSupported, op⟩
    exportKeyRegistered := fun _ => false
    stringify := fun _ => ""
    utf8Encode := fun s => s.toList.map Char.toNat
    parseUtf8Json := fun _ => .error ⟨.syntaxErr, "Unexpected token"⟩ }

/-- A registry where `AES-GCM` is registered for `encrypt` only, so
`wrapKey`'s primary normalization fails and the `encrypt` fallback
succeeds. -/
def encOnlyEnv : Env :=
  { normalize := fun op d =>
      match op, d with
      | "encrypt", .str "AES-GCM" => .ok sampleModule
      | _, _ => .error ⟨.notSupported, op⟩
    exportKeyRegistered := fun n => n = "AES-GCM"
    stringify := fun _ => ""
    utf8Encode := fun s => s.toList.map Char.toNat
    parseUtf8Json := fun _ => .error ⟨.syntaxErr, "Unexpected token"⟩ }

/-- A module named `AES-KW` that exposes both `unwrapKey` and `decrypt`
capabilities (both succeed on any input). -/
def kwModule : NormalizedAlgorithm :=
  { name := "AES-KW"
    encrypt := none
    decrypt := some (fun _ _ d => .ok d)
    sign := none
    verify := none
    digest := none
    wrapKey := some (fun _ _ d => .ok d)
    unwrapKey := some (fun _ _ d => .ok d)
    importKey := some (fun _ _ _ _ _ => .ok sampleImported) }

/-- A registry where `"AES-KW"` resolves to `kwModule` for every operation
(the `undefined` descriptor is unregistered, as the normalizer contract
requires for a descriptor with no name). -/
def kwEnv : Env :=
  { normalize := fun _ d =>
      match d with
      | .str "AES-KW" => .ok kwModule
      | _ => .error ⟨.notSupported, "unregistered algorithm"⟩
    exportKeyRegistered := fun n => n = "AES-KW"
    stringify := fun _ => ""
    utf8Encode := fun s => s.toList.map Char.toNat
    parseUtf8Json := fun _ => .error ⟨.syntaxErr, "Unexpected token"⟩ }

/-- An AES-KW key authorized to unwrap. -/
def kwKey : CryptoKey :=
  { type := "secret", extractable := true,
    algorithm := ⟨"AES-KW", none⟩,
    usages := ["wrapKey", "unwrapKey"], handle := [7] }

/-- A module named `RSA-OAEP` with a working `decrypt` capability. -/
def oaepModule : NormalizedAlgorithm :=
  { name := "RSA-OAEP"
    encrypt := none
    decrypt := some (fun _ _ d => .ok d)
    sign := none
    verify := none
    digest := none
    wrapKey := none
    unwrapKey := none
    importKey := none }

/-- A registry where `"RSA-OAEP"` is registered for `unwrapKey` and
`decrypt` but not for `importKey`, while `"AES-GCM"` is registered for
`importKey`: exactly the situation in which `unwrapKey`'s choice of
descriptor for the `importKey` normalization is observable. -/
def oaepEnv : Env :=
  { normalize := fun op d =>
      match op, d with
      | "unwrapKey", .str "RSA-OAEP" => .ok oaepModule
      | "decrypt", .str "RSA-OAEP" => .ok oaepModule
      | "importKey", .str "AES-GCM" => .ok sampleModule
      | _, _ => .error ⟨.notSupported, op⟩
    exportKeyRegistered := fun _ => false
    stringify := fun _ => ""
    utf8Encode := fun s => s.toList.map Char.toNat
    parseUtf8Json := fun _ => .error ⟨.syntaxErr, "Unexpected token"⟩ }

/-- An RSA-OAEP key authorized to unwrap. -/
def oaepKey : CryptoKey :=
  { type := "private", extractable := false,
    algorithm := ⟨"RSA-OAEP", none⟩,
    usages := ["decrypt", "unwrapKey"], handle := [8] }

/-- A module named `AES-CBC` with no `unwrapKey` capability and a `decrypt`
capability that fails with `OperationError` (e.g. bad padding). -/
def cbcModule : NormalizedAlgorithm :=
  { name := "AES-CBC"
    encrypt := none
    decrypt := some (fun _ _ _ => .error ⟨.operationErr, "authentication tag mismatch"⟩)
    sign := none
    verify := none
    digest := none
    wrapKey := none
    unwrapKey := none
    importKey := some (fun _ _ _ _ _ => .ok sampleImported) }

/-- A registry where `"AES-CBC"` resolves to `cbcModule` for every
operation. -/
def cbcEnv : Env :=
  { normalize := fun _ d =>
      match d with
      | .str "AES-CBC" => .ok cbcModule
      | _ => .error ⟨.notSupported, "unregistered algorithm"⟩
    exportKeyRegistered := fun _ => false
    stringify := fun _ => ""
    utf8Encode := fun s => s.toList.map Char.toNat
    parseUtf8Json := fun _ => .error ⟨.syntaxErr, "Unexpected token"⟩ }

/-- An AES-CBC key authorized to unwrap and decrypt. -/
def cbcKey : CryptoKey :=
  { type := "secret", extractable := true,
    algorithm := ⟨"AES-CBC", none⟩,
    usages := ["decrypt", "unwrapKey"], handle := [9] }

/-- C7: every octet input (data for encrypt/decrypt/sign/verify/digest,
signature for verify, wrappedKey for unwrapKey, raw keyData for importKey)
is copied by value before the deferred computation proceeds: two runs whose
input buffers agree at dispatch time but are mutated differently afterwards
produce the same outcome (and the same events). -/
theorem octet_inputs_copied_by_value :
    (∀ env alg key now l1 l2,
        SubtleCrypto.encrypt env alg key ⟨now, l1⟩ = SubtleCrypto.encrypt env alg key ⟨now, l2⟩) ∧
    (∀ env alg key now l1 l2,
        SubtleCrypto.decrypt env alg key ⟨now, l1⟩ = SubtleCrypto.decrypt env alg key ⟨now, l2⟩) ∧
    (∀ env alg key now l1 l2,
        SubtleCrypto.sign env alg key ⟨now, l1⟩ = SubtleCrypto.sign env alg key ⟨now, l2⟩) ∧
    (∀ env alg key sn sl1 sl2 dn dl1 dl2,
        SubtleCrypto.verify env alg key ⟨sn, sl1⟩ ⟨dn, dl1⟩ =
          SubtleCrypto.verify env alg key ⟨sn, sl2⟩ ⟨dn, dl2⟩) ∧
    (∀ env alg now l1 l2,
        SubtleCrypto.digest env alg ⟨now, l1⟩ = SubtleCrypto.digest env alg ⟨now, l2⟩) ∧
    (∀ env format now l1 l2 ukey a1 a2 ext us,
        SubtleCrypto.unwrapKey env format ⟨now, l1⟩ ukey a1 a2 ext us =
          SubtleCrypto.unwrapKey env format ⟨now, l2⟩ ukey a1 a2 ext us) ∧
    (∀ env format now l1 l2 alg ext us,
        SubtleCrypto.importKey env format (.buf ⟨now, l1⟩) alg ext us =
          SubtleCrypto.importKey env format (.buf ⟨now, l2⟩) alg ext us) :=
  ⟨fun _ _ _ _ _ _ => rfl, fun _ _ _ _ _ _ => rfl, fun _ _ _ _ _ _ => rfl,
   fun _ _ _ _ _ _ _ _ _ => rfl, fun _ _ _ _ _ => rfl,
   fun _ _ _ _ _ _ _ _ _ _ => rfl, fun _ _ _ _ _ _ _ _ => rfl⟩

/-- C2 counterexample: a non-extractable key whose algorithm name is not in
the `exportKey` registry is rejected by `exportKey` — and by `wrapKey` with
a valid wrapping key and algorithm — with `NotSupportedError`, not
`InvalidAccessError`: the registry check of `SubtleCrypto.js` lines 337/395
precedes the extractability gate of lines 341/400. -/
theorem nonextractable_counterexample :
    foreignKey.extractable = false ∧
    (SubtleCrypto.exportKey sampleEnv "raw" foreignKey).1 = .rejected ⟨.notSupported, "X"⟩ ∧
    (SubtleCrypto.wrapKey sampleEnv "raw" foreignKey sampleKey (.str "AES-GCM")).1 =
      .rejected ⟨.notSupported, "X"⟩ ∧
    ErrKind.notSupported ≠ ErrKind.invalidAccess :=
  ⟨rfl, rfl, rfl, by decide⟩

/-- C2 (amended): for every key with `extractable = false` whose algorithm
name is registered for `exportKey`, `exportKey` rejects with
`InvalidAccessError` for every format, and `wrapKey` of that key under a
valid wrapping key and algorithm rejects the same way. -/
theorem nonextractable_gate :
    (∀ env format key, env.exportKeyRegistered key.algorithm.name = true →
        key.extractable = false →
        SubtleCrypto.exportKey env format key =
          (.rejected ⟨.invalidAccess, "Key is not extractable"⟩, [.pubExportKey])) ∧
    (∀ env format key wkey alg na, normalizeWrapAlg env alg = .ok na →
        na.name = wkey.algorithm.name →
        wkey.usages.contains "wrapKey" = true →
        env.exportKeyRegistered key.algorithm.name = true →
        key.extractable = false →
        SubtleCrypto.wrapKey env format key wkey alg =
          (.rejected ⟨.invalidAccess, "Key is not extractable"⟩, [.pubWrapKey])) := by
  constructor
  · intro env format key hreg hext
    simp [SubtleCrypto.exportKey, hreg, hext]
  · intro env format key wkey alg na hna hname husage hreg hext
    have husage2 : "wrapKey" ∈ wkey.usages := by simpa using husage
    simp [SubtleCrypto.wrapKey, wrapKeyValidated, hna, hname, husage2, hreg, hext]

/-- C2 witness: the amended gate at a concrete non-extractable AES-GCM key. -/
theorem nonextractable_gate_witness :
    sampleEnv.exportKeyRegistered lockedKey.algorithm.name = true ∧
    lockedKey.extractable = false ∧
    SubtleCrypto.exportKey sampleEnv "jwk" lockedKey =
      (.rejected ⟨.invalidAccess, "Key is not extractable"⟩, [.pubExportKey]) ∧
    SubtleCrypto.wrapKey sampleEnv "jwk" lockedKey sampleKey (.str "AES-GCM") =
      (.rejected ⟨.invalidAccess, "Key is not extractable"⟩, [.pubWrapKey]) := by
  refine ⟨rfl, rfl, ?_, ?_⟩
  · exact nonextractable_gate.1 sampleEnv "jwk" lockedKey rfl rfl
  · exact nonextractable_gate.2 sampleEnv "jwk" lockedKey sampleKey (.str "AES-GCM")
      sampleModule rfl rfl rfl rfl rfl

/-- C6 counterexample: on a registry where both normalizations fail with
distinct errors, `wrapKey` rejects with the error of the `encrypt` fallback
attempt, not the original `wrapKey` one — the source overwrites
`normalizedAlgorithm` at line 372, so the original error is lost. -/
theorem wrapKey_fallback_error_counterexample :
    failEnv.normalize "wrapKey" (.str "Z") = .error ⟨.notSupported, "wrapKey"⟩ ∧
    failEnv.normalize "encrypt" (.str "Z") = .error ⟨.notSupported, "encrypt"⟩ ∧
    (SubtleCrypto.wrapKey failEnv "raw" sampleKey sampleKey (.str "Z")).1 =
      .rejected ⟨.notSupported, "encrypt"⟩ ∧
    (⟨.notSupported, "encrypt"⟩ : JsError) ≠ ⟨.notSupported, "wrapKey"⟩ :=
  ⟨rfl, rfl, rfl, by decide⟩

/-- C6 (amended): `wrapAlgorithm` is first normalized under `wrapKey`; only
if that fails is it normalized under `encrypt`; and if both normalizations
fail, the promise rejects with the error from the `encrypt` fallback
normalization (the original error from the `wrapKey` attempt is
overwritten). -/
theorem wrapKey_normalization_fallback :
    (∀ env format key wkey alg na, env.normalize "wrapKey" alg = .ok na →
        SubtleCrypto.wrapKey env format key wkey alg =
          wrapKeyValidated env format key wkey alg na) ∧
    (∀ env format key wkey alg e1 na, env.normalize "wrapKey" alg = .error e1 →
        env.normalize "encrypt" alg = .ok na →
        SubtleCrypto.wrapKey env format key wkey alg =
          wrapKeyValidated env format key wkey alg na) ∧
    (∀ env format key wkey alg e1 e2, env.normalize "wrapKey" alg = .error e1 →
        env.normalize "encrypt" alg = .error e2 →
        SubtleCrypto.wrapKey env format key wkey alg = (.rejected e2, [.pubWrapKey])) := by
  refine ⟨?_, ?_, ?_⟩
  · intro env format key wkey alg na h1
    simp [SubtleCrypto.wrapKey, normalizeWrapAlg, h1]
  · intro env format key wkey alg e1 na h1 h2
    simp [SubtleCrypto.wrapKey, normalizeWrapAlg, h1, h2]
  · intro env format key wkey alg e1 e2 h1 h2
    simp [SubtleCrypto.wrapKey, normalizeWrapAlg, h1, h2]

/-- C6 witness: the three branches of the amended fallback rule at concrete
registries — primary success, fallback success, and both failing (where the
rejection carries the `encrypt` attempt's error). -/
theorem wrapKey_normalization_fallback_witness :
    SubtleCrypto.wrapKey sampleEnv "raw" sampleKey sampleKey (.str "AES-GCM") =
      wrapKeyValidated sampleEnv "raw" sampleKey sampleKey (.str "AES-GCM") sampleModule ∧
    SubtleCrypto.wrapKey encOnlyEnv "raw" sampleKey sampleKey (.str "AES-GCM") =
      wrapKeyValidated encOnlyEnv "raw" sampleKey sampleKey (.str "AES-GCM") sampleModule ∧
    SubtleCrypto.wrapKey failEnv "raw" sampleKey sampleKey (.str "Z") =
      (.rejected ⟨.notSupported, "encrypt"⟩, [.pubWrapKey]) := by
  refine ⟨?_, ?_, ?_⟩
  · exact wrapKey_normalization_fallback.1 sampleEnv "raw" sampleKey sampleKey
      (.str "AES-GCM") sampleModule rfl
  · exact wrapKey_normalization_fallback.2.1 encOnlyEnv "raw" sampleKey sampleKey
      (.str "AES-GCM") ⟨.notSupported, "wrapKey"⟩ sampleModule rfl rfl
  · exact wrapKey_normalization_fallback.2.2 failEnv "raw" sampleKey sampleKey
      (.str "Z") ⟨.notSupported, "wrapKey"⟩ ⟨.notSupported, "encrypt"⟩ rfl rfl

/-- C1: for each of encrypt, decrypt, sign, verify, wrapKey and unwrapKey,
when the (fallback-inclusive) normalization phase succeeds and the required
usage is absent from the relevant key's usage list, the operation rejects
with an `InvalidAccessError` and the algorithm module's capability for the
operation is never invoked. -/
theorem usage_gate_rejects_before_module :
    (∀ env alg key data na, env.normalize "encrypt" alg = .ok na →
        key.usages.contains "encrypt" = false →
        (SubtleCrypto.encrypt env alg key data).1.rejKind = some ErrKind.invalidAccess ∧
        Event.modEncrypt ∉ (SubtleCrypto.encrypt env alg key data).2) ∧
    (∀ env alg key data na, env.normalize "decrypt" alg = .ok na →
        key.usages.contains "decrypt" = false →
        (SubtleCrypto.decrypt env alg key data).1.rejKind = some ErrKind.invalidAccess ∧
        Event.modDecrypt ∉ (SubtleCrypto.decrypt env alg key data).2) ∧
    (∀ env alg key data na, env.normalize "sign" alg = .ok na →
        key.usages.contains "sign" = false →
        (SubtleCrypto.sign env alg key data).1.rejKind = some ErrKind.invalidAccess ∧
        Event.modSign ∉ (SubtleCrypto.sign env alg key data).2) ∧
    (∀ env alg key sg data na, env.normalize "verify" alg = .ok na →
        key.usages.contains "verify" = false →
        (SubtleCrypto.verify env alg key sg data).1.rejKind = some ErrKind.invalidAccess ∧
        Event.modVerify ∉ (SubtleCrypto.verify env alg key sg data).2) ∧
    (∀ env format key wkey alg na, normalizeWrapAlg env alg = .ok na →
        wkey.usages.contains "wrapKey" = false →
        (SubtleCrypto.wrapKey env format key wkey alg).1.rejKind = some ErrKind.invalidAccess ∧
        Event.modWrapKey ∉ (SubtleCrypto.wrapKey env format key wkey alg).2 ∧
        Event.modEncrypt ∉ (SubtleCrypto.wrapKey env format key wkey alg).2) ∧
    (∀ env format wb ukey a1 a2 ext us na nka, normalizeUnwrapAlg env a1 = .ok na →
        env.normalize "importKey" a1 = .ok nka →
        ukey.usages.contains "unwrapKey" = false →
        (SubtleCrypto.unwrapKey env format wb ukey a1 a2 ext us).1.rejKind =
          some ErrKind.invalidAccess ∧
        Event.modUnwrapKey ∉ (SubtleCrypto.unwrapKey env format wb ukey a1 a2 ext us).2 ∧
        Event.modDecrypt ∉ (SubtleCrypto.unwrapKey env format wb ukey a1 a2 ext us).2) := by
  refine ⟨?_, ?_, ?_, ?_, ?_, ?_⟩
  · intro env alg key data na hna hu
    have hu2 : "encrypt" ∉ key.usages := by simpa using hu
    by_cases h : na.name = key.algorithm.name <;>
      simp [SubtleCrypto.encrypt, hna, h, hu2, Outcome.rejKind]
  · intro env alg key data na hna hu
    have hu2 : "decrypt" ∉ key.usages := by simpa using hu
    by_cases h : na.name = key.algorithm.name <;>
      simp [SubtleCrypto.decrypt, hna, h, hu2, Outcome.rejKind]
  · intro env alg key data na hna hu
    have hu2 : "sign" ∉ key.usages := by simpa using hu
    by_cases h : na.name = key.algorithm.name <;>
      simp [SubtleCrypto.sign, hna, h, hu2, Outcome.rejKind]
  · intro env alg key sg data na hna hu
    have hu2 : "verify" ∉ key.usages := by simpa using hu
    by_cases h : na.name = key.algorithm.name <;>
      simp [SubtleCrypto.verify, hna, h, hu2, Outcome.rejKind]
  · intro env format key wkey alg na hna hu
    have hu2 : "wrapKey" ∉ wkey.usages := by simpa using hu
    by_cases h : na.name = wkey.algorithm.name <;>
      simp [SubtleCrypto.wrapKey, wrapKeyValidated, hna, h, hu2, Outcome.rejKind]
  · intro env format wb ukey a1 a2 ext us na nka hna hnka hu
    have hu2 : "unwrapKey" ∉ ukey.usages := by simpa using hu
    by_cases h : na.name = ukey.algorithm.name <;>
      simp [SubtleCrypto.unwrapKey, hna, hnka, h, hu2, Outcome.rejKind]

/-- C1 witness: the six usage gates at a concrete AES-GCM key with an empty
usage list (and matching algorithm name), under the sample registry. -/
theorem usage_gate_rejects_before_module_witness :
    ((SubtleCrypto.encrypt sampleEnv (.str "AES-GCM") noUsageKey ⟨[1], []⟩).1.rejKind =
        some ErrKind.invalidAccess ∧
      Event.modEncrypt ∉ (SubtleCrypto.encrypt sampleEnv (.str "AES-GCM") noUsageKey ⟨[1], []⟩).2) ∧
    ((SubtleCrypto.decrypt sampleEnv (.str "AES-GCM") noUsageKey ⟨[1], []⟩).1.rejKind =
        some ErrKind.invalidAccess ∧
      Event.modDecrypt ∉ (SubtleCrypto.decrypt sampleEnv (.str "AES-GCM") noUsageKey ⟨[1], []⟩).2) ∧
    ((SubtleCrypto.sign sampleEnv (.str "AES-GCM") noUsageKey ⟨[1], []⟩).1.rejKind =
        some ErrKind.invalidAccess ∧
      Event.modSign ∉ (SubtleCrypto.sign sampleEnv (.str "AES-GCM") noUsageKey ⟨[1], []⟩).2) ∧
    ((SubtleCrypto.verify sampleEnv (.str "AES-GCM") noUsageKey ⟨[2], []⟩ ⟨[1], []⟩).1.rejKind =
        some ErrKind.invalidAccess ∧
      Event.modVerify ∉
        (SubtleCrypto.verify sampleEnv (.str "AES-GCM") noUsageKey ⟨[2], []⟩ ⟨[1], []⟩).2) ∧
    ((SubtleCrypto.wrapKey sampleEnv "raw" sampleKey noUsageKey (.str "AES-GCM")).1.rejKind =
        some ErrKind.invalidAccess ∧
      Event.modWrapKey ∉ (SubtleCrypto.wrapKey sampleEnv "raw" sampleKey noUsageKey (.str "AES-GCM")).2 ∧
      Event.modEncrypt ∉ (SubtleCrypto.wrapKey sampleEnv "raw" sampleKey noUsageKey (.str "AES-GCM")).2) ∧
    ((SubtleCrypto.unwrapKey sampleEnv "raw" ⟨[1], []⟩ noUsageKey (.str "AES-GCM") (.str "AES-GCM")
        true ["encrypt"]).1.rejKind = some ErrKind.invalidAccess ∧
      Event.modUnwrapKey ∉ (SubtleCrypto.unwrapKey sampleEnv "raw" ⟨[1], []⟩ noUsageKey
        (.str "AES-GCM") (.str "AES-GCM") true ["encrypt"]).2 ∧
      Event.modDecrypt ∉ (SubtleCrypto.unwrapKey sampleEnv "raw" ⟨[1], []⟩ noUsageKey
        (.str "AES-GCM") (.str "AES-GCM") true ["encrypt"]).2) := by
  refine ⟨?_, ?_, ?_, ?_, ?_, ?_⟩
  · exact usage_gate_rejects_before_module.1 sampleEnv (.str "AES-GCM") noUsageKey ⟨[1], []⟩
      sampleModule rfl rfl
  · exact usage_gate_rejects_before_module.2.1 sampleEnv (.str "AES-GCM") noUsageKey ⟨[1], []⟩
      sampleModule rfl rfl
  · exact usage_gate_rejects_before_module.2.2.1 sampleEnv (.str "AES-GCM") noUsageKey ⟨[1], []⟩
      sampleModule rfl rfl
  · exact usage_gate_rejects_before_module.2.2.2.1 sampleEnv (.str "AES-GCM") noUsageKey
      ⟨[2], []⟩ ⟨[1], []⟩ sampleModule rfl rfl
  · exact usage_gate_rejects_before_module.2.2.2.2.1 sampleEnv "raw" sampleKey noUsageKey
      (.str "AES-GCM") sampleModule rfl rfl
  · exact usage_gate_rejects_before_module.2.2.2.2.2 sampleEnv "raw" ⟨[1], []⟩ noUsageKey
      (.str "AES-GCM") (.str "AES-GCM") true ["encrypt"] sampleModule sampleModule rfl rfl rfl

/-- C9: in each operation validating both the name match and the usage, the
name check comes first: when the normalized name differs from the key's
algorithm name and the required usage is also absent, the rejection is the
name-mismatch `InvalidAccessError` (with the source's name-mismatch
message), not the missing-usage one. -/
theorem name_check_precedes_usage_check :
    (∀ env alg key data na, env.normalize "encrypt" alg = .ok na →
        na.name ≠ key.algorithm.name → key.usages.contains "encrypt" = false →
        (SubtleCrypto.encrypt env alg key data).1 =
          .rejected ⟨.invalidAccess, "Algorithm does not match key"⟩) ∧
    (∀ env alg key data na, env.normalize "decrypt" alg = .ok na →
        na.name ≠ key.algorithm.name → key.usages.contains "decrypt" = false →
        (SubtleCrypto.decrypt env alg key data).1 =
          .rejected ⟨.invalidAccess, "Algorithm does not match key"⟩) ∧
    (∀ env alg key data na, env.normalize "sign" alg = .ok na →
        na.name ≠ key.algorithm.name → key.usages.contains "sign" = false →
        (SubtleCrypto.sign env alg key data).1 =
          .rejected ⟨.invalidAccess, "Algorithm does not match key"⟩) ∧
    (∀ env alg key sg data na, env.normalize "verify" alg = .ok na →
        na.name ≠ key.algorithm.name → key.usages.contains "verify" = false →
        (SubtleCrypto.verify env alg key sg data).1 =
          .rejected ⟨.invalidAccess, "Algorithm does not match key"⟩) ∧
    (∀ env format key wkey alg na, normalizeWrapAlg env alg = .ok na →
        na.name ≠ wkey.algorithm.name → wkey.usages.contains "wrapKey" = false →
        (SubtleCrypto.wrapKey env format key wkey alg).1 =
          .rejected ⟨.invalidAccess, "NormalizedAlgorthm name must be same as wrappingKey algorithm name"⟩) ∧
    (∀ env format wb ukey a1 a2 ext us na nka, normalizeUnwrapAlg env a1 = .ok na →
        env.normalize "importKey" a1 = .ok nka →
        na.name ≠ ukey.algorithm.name → ukey.usages.contains "unwrapKey" = false →
        (SubtleCrypto.unwrapKey env format wb ukey a1 a2 ext us).1 =
          .rejected ⟨.invalidAccess, "NormalizedAlgorthm name must be same as unwrappingKey algorithm name"⟩) := by
  refine ⟨?_, ?_, ?_, ?_, ?_, ?_⟩
  · intro env alg key data na hna hm _hu
    simp [SubtleCrypto.encrypt, hna, hm]
  · intro env alg key data na hna hm _hu
    simp [SubtleCrypto.decrypt, hna, hm]
  · intro env alg key data na hna hm _hu
    simp [SubtleCrypto.sign, hna, hm]
  · intro env alg key sg data na hna hm _hu
    simp [SubtleCrypto.verify, hna, hm]
  · intro env format key wkey alg na hna hm _hu
    simp [SubtleCrypto.wrapKey, wrapKeyValidated, hna, hm]
  · intro env format wb ukey a1 a2 ext us na nka hna hnka hm _hu
    simp [SubtleCrypto.unwrapKey, hna, hnka, hm]

/-- C9 witness: the six orderings at a concrete key named `OTHER` with an
empty usage list, dispatched under `AES-GCM` descriptors. -/
theorem name_check_precedes_usage_check_witness :
    (SubtleCrypto.encrypt sampleEnv (.str "AES-GCM") mismatchKey ⟨[1], []⟩).1 =
      .rejected ⟨.invalidAccess, "Algorithm does not match key"⟩ ∧
    (SubtleCrypto.decrypt sampleEnv (.str "AES-GCM") mismatchKey ⟨[1], []⟩).1 =
      .rejected ⟨.invalidAccess, "Algorithm does not match key"⟩ ∧
    (SubtleCrypto.sign sampleEnv (.str "AES-GCM") mismatchKey ⟨[1], []⟩).1 =
      .rejected ⟨.invalidAccess, "Algorithm does not match key"⟩ ∧
    (SubtleCrypto.verify sampleEnv (.str "AES-GCM") mismatchKey ⟨[2], []⟩ ⟨[1], []⟩).1 =
      .rejected ⟨.invalidAccess, "Algorithm does not match key"⟩ ∧
    (SubtleCrypto.wrapKey sampleEnv "raw" sampleKey mismatchKey (.str "AES-GCM")).1 =
      .rejected ⟨.invalidAccess, "NormalizedAlgorthm name must be same as wrappingKey algorithm name"⟩ ∧
    (SubtleCrypto.unwrapKey sampleEnv "raw" ⟨[1], []⟩ mismatchKey (.str "AES-GCM") (.str "AES-GCM")
        true ["encrypt"]).1 =
      .rejected ⟨.invalidAccess, "NormalizedAlgorthm name must be same as unwrappingKey algorithm name"⟩ := by
  refine ⟨?_, ?_, ?_, ?_, ?_, ?_⟩
  · exact name_check_precedes_usage_check.1 sampleEnv (.str "AES-GCM") mismatchKey ⟨[1], []⟩
      sampleModule rfl (by decide) rfl
  · exact name_check_precedes_usage_check.2.1 sampleEnv (.str "AES-GCM") mismatchKey ⟨[1], []⟩
      sampleModule rfl (by decide) rfl
  · exact name_check_precedes_usage_check.2.2.1 sampleEnv (.str "AES-GCM") mismatchKey ⟨[1], []⟩
      sampleModule rfl (by decide) rfl
  · exact name_check_precedes_usage_check.2.2.2.1 sampleEnv (.str "AES-GCM") mismatchKey
      ⟨[2], []⟩ ⟨[1], []⟩ sampleModule rfl (by decide) rfl
  · exact name_check_precedes_usage_check.2.2.2.2.1 sampleEnv "raw" sampleKey mismatchKey
      (.str "AES-GCM") sampleModule rfl (by decide) rfl
  · exact name_check_precedes_usage_check.2.2.2.2.2 sampleEnv "raw" ⟨[1], []⟩ mismatchKey
      (.str "AES-GCM") (.str "AES-GCM") true ["encrypt"] sampleModule sampleModule rfl rfl
      (by decide) rfl

/-- C8: with a successfully normalized import algorithm, supplying a
structured JWK object under format `raw`/`pkcs8`/`spki` rejects with
`TypeError`, and supplying an octet buffer under format `jwk` rejects with
the `TypeError` (message `key is not a JSON Web Key`) of line 298.  The
`jwk` half rests on the spec-modelled `JsonWebKey` construction
(`mkJsonWebKey`), since `src/keys/JsonWebKey` is outside `src/`. -/
theorem importKey_format_material_mismatch :
    (∀ env format alg na j ext us, env.normalize "importKey" alg = .ok na →
        format = "raw" ∨ format = "pkcs8" ∨ format = "spki" →
        (SubtleCrypto.importKey env format (.jwkObj j) alg ext us).1.rejKind =
          some ErrKind.typeErr) ∧
    (∀ env alg na b ext us, env.normalize "importKey" alg = .ok na →
        (SubtleCrypto.importKey env "jwk" (.buf b) alg ext us).1 =
          .rejected ⟨.typeErr, "key is not a JSON Web Key"⟩) := by
  constructor
  · intro env format alg na j ext us hna hf
    rcases hf with rfl | rfl | rfl <;>
      simp [SubtleCrypto.importKey, hna, Outcome.rejKind]
  · intro env alg na b ext us hna
    simp [SubtleCrypto.importKey, hna, mkJsonWebKey]

/-- C8 witness: the two mismatches at concrete material under the sample
registry. -/
theorem importKey_format_material_mismatch_witness :
    (SubtleCrypto.importKey sampleEnv "raw" (.jwkObj ⟨[("kty", "oct")]⟩) (.str "AES-GCM")
        true ["encrypt"]).1.rejKind = some ErrKind.typeErr ∧
    (SubtleCrypto.importKey sampleEnv "jwk" (.buf ⟨[1, 2], []⟩) (.str "AES-GCM")
        true ["encrypt"]).1 = .rejected ⟨.typeErr, "key is not a JSON Web Key"⟩ := by
  constructor
  · exact importKey_format_material_mismatch.1 sampleEnv "raw" (.str "AES-GCM") sampleModule
      ⟨[("kty", "oct")]⟩ true ["encrypt"] rfl (Or.inl rfl)
  · exact importKey_format_material_mismatch.2 sampleEnv (.str "AES-GCM") sampleModule
      ⟨[1, 2], []⟩ true ["encrypt"] rfl

/-- C10: `digest` performs no key, usage or extractability validation: when
normalization under `digest` succeeds and the module exposes a `digest`
capability, that capability is invoked directly on the copied data (the
outcome and trace are exactly the capability's), and the promise rejects
with `InvalidAccessError` only if the capability itself threw one. -/
theorem digest_no_validation :
    ∀ env alg data na f, env.normalize "digest" alg = .ok na → na.digest = some f →
      SubtleCrypto.digest env alg data =
        ((match f alg data.now with
          | .ok r => Outcome.resolved r
          | .error e => Outcome.rejected e), [Event.pubDigest, Event.modDigest]) ∧
      ((∀ e, f alg data.now = .error e → e.kind ≠ ErrKind.invalidAccess) →
        (SubtleCrypto.digest env alg data).1.rejKind ≠ some ErrKind.invalidAccess) := by
  intro env alg data na f hna hf
  have h1 : SubtleCrypto.digest env alg data =
      ((match f alg data.now with
        | .ok r => Outcome.resolved r
        | .error e => Outcome.rejected e), [Event.pubDigest, Event.modDigest]) := by
    cases hc : f alg data.now <;> simp [SubtleCrypto.digest, hna, hf, hc]
  refine ⟨h1, fun hne => ?_⟩
  rw [h1]
  cases hc : f alg data.now with
  | ok r => simp [Outcome.rejKind, hc]
  | error e =>
    simp only [hc, Outcome.rejKind, Option.some.injEq]
    exact fun habs => hne e hc (by simpa using habs)

/-- C10 witness: `digest` under the sample registry resolves with the
module's digest of the input and never rejects with `InvalidAccessError`. -/
theorem digest_no_validation_witness :
    SubtleCrypto.digest sampleEnv (.str "AES-GCM") ⟨[1, 2], []⟩ =
      (.resolved [1, 2], [.pubDigest, .modDigest]) ∧
    (SubtleCrypto.digest sampleEnv (.str "AES-GCM") ⟨[1, 2], []⟩).1.rejKind ≠
      some ErrKind.invalidAccess := by
  have h := digest_no_validation sampleEnv (.str "AES-GCM") ⟨[1, 2], []⟩ sampleModule
    (fun _ d => .ok d) rfl rfl
  exact ⟨h.1, h.2 (by intro e he; simp at he)⟩

/-- C3 (code bug): with a registered `AES-KW` module exposing an
`unwrapKey` capability and a valid unwrapping key, the dispatcher does not
invoke the module's capability at all — it re-enters its own public
`unwrapKey` (line 494; the trace records `pubUnwrapKey` twice and never
`modUnwrapKey`/`modDecrypt`), the re-entered activation rejects, and the
swallowed rejection leaves the promise permanently pending. -/
theorem unwrapKey_reenters_dispatcher :
    kwEnv.normalize "unwrapKey" (.str "AES-KW") = .ok kwModule ∧
    kwModule.unwrapKey.isSome = true ∧
    SubtleCrypto.unwrapKey kwEnv "raw" ⟨[7], [7]⟩ kwKey (.str "AES-KW") (.str "AES-KW")
        true ["encrypt"] = (.pending, [.pubUnwrapKey, .pubUnwrapKey]) ∧
    Event.modUnwrapKey ∉ (SubtleCrypto.unwrapKey kwEnv "raw" ⟨[7], [7]⟩ kwKey (.str "AES-KW")
        (.str "AES-KW") true ["encrypt"]).2 ∧
    Event.modDecrypt ∉ (SubtleCrypto.unwrapKey kwEnv "raw" ⟨[7], [7]⟩ kwKey (.str "AES-KW")
        (.str "AES-KW") true ["encrypt"]).2 :=
  ⟨rfl, rfl, rfl, by decide, by decide⟩

/-- C4 (code bug): `unwrapKey` normalizes the `unwrapAlgorithm` argument —
not `unwrappedKeyAlgorithm` — under `importKey` (line 470): on a registry
where `RSA-OAEP` is registered for `unwrapKey`/`decrypt` but not for
`importKey` while the `unwrappedKeyAlgorithm` descriptor `AES-GCM` is
registered for `importKey`, the call rejects with the `importKey`
normalization error of the wrong descriptor. -/
theorem unwrapKey_wrong_import_descriptor :
    oaepEnv.normalize "importKey" (.str "AES-GCM") = .ok sampleModule ∧
    oaepEnv.normalize "importKey" (.str "RSA-OAEP") = .error ⟨.notSupported, "importKey"⟩ ∧
    SubtleCrypto.unwrapKey oaepEnv "raw" ⟨[5], [5]⟩ oaepKey (.str "RSA-OAEP") (.str "AES-GCM")
        true ["encrypt"] = (.rejected ⟨.notSupported, "importKey"⟩, [.pubUnwrapKey]) :=
  ⟨rfl, rfl, rfl⟩

/-- C5 (code bug): when the module's `decrypt` capability fails (here with
`OperationError`), the rejection travels into the `.then` chain whose only
handler is `.catch(console.log)` (line 541): the error is logged and
swallowed, and the promise returned by `unwrapKey` never settles instead of
rejecting with the typed error. -/
theorem unwrapKey_swallows_errors :
    cbcModule.decrypt = some (fun _ _ _ => .error ⟨.operationErr, "authentication tag mismatch"⟩) ∧
    SubtleCrypto.unwrapKey cbcEnv "raw" ⟨[9], [9]⟩ cbcKey (.str "AES-CBC") (.str "AES-CBC")
        true ["encrypt"] = (.pending, [.pubUnwrapKey, .pubDecrypt, .modDecrypt]) ∧
    (SubtleCrypto.unwrapKey cbcEnv "raw" ⟨[9], [9]⟩ cbcKey (.str "AES-CBC") (.str "AES-CBC")
        true ["encrypt"]).1.settles = false :=
  ⟨rfl, rfl, rfl⟩
